import Mathlib

/-!
Shallow embedding of the section-generation orchestrator of `app/services.py`
and of the transport client of `app/config.py`, together with theorems about
its documented behaviour.

Modelling conventions:
* Python strings are Lean `String`s; where the code slices or scans by index,
  the model works on `String.data : List Char` (Python indexes code points,
  which matches `List Char`).
* Python's `re` usage in `clean_json_response` is modelled operation by
  operation (each regex is anchored or has an equivalent linear scan; see the
  individual definitions).
* `json.loads` is an external library call; it is modelled as an oracle
  `loads : String → Option Jv` supplied to the functions that use it
  (`none` models a `json.JSONDecodeError`).
* The chat-completion transport is an external service; the reply of each
  attempt is modelled as an oracle `Nat → AttemptOutcome`.
* Python numbers inside JSON example data are carried as their decimal
  source text (`Jv.num "250000"`), which is exactly what `json.dumps`
  prints for them; floating point arithmetic is excluded from the embedding.
  The single float comparison in the validator, `word_count < min_words * 0.8`,
  is embedded as the exact rational comparison `10 * wordCount < 8 * min_words`:
  for every `min_words` value in the registry (300, 500, 700, 800) the double
  product `min_words * 0.8` rounds to the exact integer value, so the two
  comparisons agree.
-/

namespace BizPlan

/-- Characters that the model writes via code points to keep source text plain:
the opening brace `\x7b`. -/
def lbrace : Char := Char.ofNat 123

/-- Closing brace `\x7d`. -/
def rbrace : Char := Char.ofNat 125

/-- Opening bracket. -/
def lbrack : Char := Char.ofNat 91

/-- Closing bracket. -/
def rbrack : Char := Char.ofNat 93

/-- Backquote (code fence character). -/
def backquote : Char := Char.ofNat 96

/-- Python `\s` / `str.strip` whitespace, restricted to the ASCII range
(space, tab, newline, carriage return, vertical tab, form feed); the inputs
the repository handles are ASCII. -/
def pyIsSpace (c : Char) : Bool :=
  c = ' ' || c = '\t' || c = '\n' || c = '\r' || c = Char.ofNat 11 || c = Char.ofNat 12

/-- Python `str.strip()` on a character list. -/
def pyStripList (l : List Char) : List Char :=
  ((l.dropWhile pyIsSpace).reverse.dropWhile pyIsSpace).reverse

/-- Python `str.strip()`. -/
def pyStrip (s : String) : String := ⟨pyStripList s.data⟩

/-- Number of maximal non-whitespace runs; `go l inWord` counts runs in `l`
given whether a run is already open.  `len(s.split())` in Python. -/
def wordRuns : List Char → Bool → Nat
  | [], _ => 0
  | c :: rest, inWord =>
    if pyIsSpace c then wordRuns rest false
    else (if inWord then 0 else 1) + wordRuns rest true

/-- Python `len(s.split())`: the number of whitespace-separated words. -/
def wordCount (s : String) : Nat := wordRuns s.data false

/-- The seven characters of the opening fence marker `to be compared
case-insensitively`. -/
def fenceOpenChars : List Char := "```json".data

/-- The three characters of a bare fence marker. -/
def fenceChars : List Char := "```".data

/-- `re.sub(r'^```json\s*', '', text, flags=re.IGNORECASE)`: the pattern is
anchored at the start of the string, so it removes one leading
`\x60\x60\x60json` (case-insensitive) together with the following whitespace
run, if present. -/
def stripFenceOpen (l : List Char) : List Char :=
  if (l.take 7).map Char.toLower = fenceOpenChars then
    (l.drop 7).dropWhile pyIsSpace
  else l

/-- `re.sub(r'\s*```\s*$', '', text, flags=re.IGNORECASE)`: the pattern must
reach the end of the string, so it removes a trailing run of whitespace, a
closing fence, and the whitespace run before it, if the string ends that
way. -/
def stripFenceClose (l : List Char) : List Char :=
  let r := l.reverse.dropWhile pyIsSpace
  if r.take 3 = fenceChars then ((r.drop 3).dropWhile pyIsSpace).reverse
  else l

/-- `start = text.find('\x7b')`, falling back to `text.find('\x5b')`, as a
Python index (`-1` when absent). -/
def firstOpenIdx (l : List Char) : Int :=
  match l.findIdx? (· = lbrace) with
  | some i => (i : Int)
  | none =>
    match l.findIdx? (· = lbrack) with
    | some j => (j : Int)
    | none => -1

/-- `if start > 0: text = text[start:]` — drop any text before the first
opening brace (or, when there is no brace, the first opening bracket). -/
def sliceFromStart (l : List Char) : List Char :=
  let start := firstOpenIdx l
  if start > 0 then l.drop start.toNat else l

/-- `text.rfind(c)` as a Python index (`-1` when absent). -/
def pyRfind (c : Char) (l : List Char) : Int :=
  match l.reverse.findIdx? (· = c) with
  | some i => (l.length : Int) - 1 - (i : Int)
  | none => -1

/-- `end = max(text.rfind('\x7d'), text.rfind('\x5d'))`; then
`if end < len(text) - 1 and end != -1: text = text[:end+1]`. -/
def truncAfterLastClose (l : List Char) : List Char :=
  let e := max (pyRfind rbrace l) (pyRfind rbrack l)
  if e < (l.length : Int) - 1 ∧ e ≠ -1 then l.take (e.toNat + 1) else l

/-- One pass of `re.sub(r',\s*X', 'X', text)` for a closing character `X`,
with fuel for structural recursion (the fuel is always at least the length
of the list, so it never runs out).  At each comma the scanner checks whether
the following whitespace run is immediately followed by `close`; if so the
whole span is replaced by `close` and scanning resumes after it, exactly as
`re.sub` does with non-overlapping matches. -/
def subCommaCloseF (close : Char) : Nat → List Char → List Char
  | 0, l => l
  | _ + 1, [] => []
  | fuel + 1, c :: rest =>
    if c = ',' then
      match rest.dropWhile pyIsSpace with
      | c2 :: tl =>
        if c2 = close then close :: subCommaCloseF close fuel tl
        else c :: subCommaCloseF close fuel rest
      | [] => c :: subCommaCloseF close fuel rest
    else c :: subCommaCloseF close fuel rest

/-- `re.sub(r',\s*X', 'X', text)` for a closing character `X`. -/
def subCommaClose (close : Char) (l : List Char) : List Char :=
  subCommaCloseF close l.length l

/-- Scanner with the same traversal as `subCommaCloseF`, reporting whether
any `,\s*X` span occurs. -/
def hasCommaCloseF (close : Char) : Nat → List Char → Bool
  | 0, _ => false
  | _ + 1, [] => false
  | fuel + 1, c :: rest =>
    if c = ',' then
      match rest.dropWhile pyIsSpace with
      | c2 :: _ =>
        if c2 = close then true
        else hasCommaCloseF close fuel rest
      | [] => hasCommaCloseF close fuel rest
    else hasCommaCloseF close fuel rest

/-- Whether a `,\s*X` span occurs in `l`. -/
def hasCommaClose (close : Char) (l : List Char) : Bool :=
  hasCommaCloseF close l.length l

/-- `clean_json_response` of `app/services.py` on a character list: strip the
markdown fences, cut text before the first opening brace/bracket and after
the last closing brace/bracket, remove trailing commas before a closing
bracket or brace, and strip surrounding whitespace. -/
def cleanList (l : List Char) : List Char :=
  pyStripList
    (subCommaClose rbrace
      (subCommaClose rbrack
        (truncAfterLastClose
          (sliceFromStart
            (stripFenceClose
              (stripFenceOpen l))))))

/-- `clean_json_response(text)` of `app/services.py`. -/
def clean_json_response (s : String) : String := ⟨cleanList s.data⟩

/-- JSON-like Python values (the results of `json.loads` and the example
data of the schema registry).  Numeric literals are carried as the decimal
text that `json.dumps` prints for them. -/
inductive Jv where
  | null
  | bool (b : Bool)
  | num (lit : String)
  | str (s : String)
  | arr (xs : List Jv)
  | obj (fields : List (String × Jv))

/-- One entry of `INDIVIDUAL_SECTION_SCHEMAS`: the `"type"` tag (the source
uses the strings `"string"` and `"json"`), the `"description"` text, the
optional `"min_words"` bound of narrative sections and the optional
`"example"` template of tabular sections.  The `"schema"` sub-field of the
source dictionaries is never read by any code path and is omitted.
(The example field carries a trailing underscore because `example` is a
Lean keyword.) -/
structure SectionSchema where
  type_ : String
  description : String
  min_words : Option Nat
  example_ : Option Jv

/-- Example data of the `financial_highlights` schema. -/
def exampleFinancialHighlights : Jv := .arr [
  .obj [("year", .num "1"), ("revenue", .num "250000"), ("net_income", .num "30"),
        ("capex", .num "50000"), ("debt_repayment", .num "10000")],
  .obj [("year", .num "2"), ("revenue", .num "400000"), ("net_income", .num "60"),
        ("capex", .num "70000"), ("debt_repayment", .num "15000")],
  .obj [("year", .num "3"), ("revenue", .num "650000"), ("net_income", .num "100"),
        ("capex", .num "90000"), ("debt_repayment", .num "20000")]]

/-- Example data of the `cash_flow_analysis` schema. -/
def exampleCashFlow : Jv := .arr [
  .obj [("year", .num "1"), ("operating", .num "80000"), ("investing", .num "-50000"),
        ("financing", .num "10000"), ("net_cash", .num "40000")],
  .obj [("year", .num "2"), ("operating", .num "120000"), ("investing", .num "-70000"),
        ("financing", .num "15000"), ("net_cash", .num "50000")],
  .obj [("year", .num "3"), ("operating", .num "200000"), ("investing", .num "-90000"),
        ("financing", .num "20000"), ("net_cash", .num "110000")]]

/-- Example data of the `profit_and_loss_projection` schema. -/
def examplePnl : Jv := .arr [
  .obj [("year", .num "1"), ("revenue", .num "250000"), ("cogs", .num "100000"),
        ("gross_profit", .num "150000"), ("operating_expenses", .num "120000"),
        ("ebitda", .num "30000"), ("depreciation_amortization", .num "5000"),
        ("ebit", .num "25000"), ("interest", .num "2000"), ("taxes", .num "3000"),
        ("net_income", .num "30000")],
  .obj [("year", .num "2"), ("revenue", .num "400000"), ("cogs", .num "160000"),
        ("gross_profit", .num "240000"), ("operating_expenses", .num "160000"),
        ("ebitda", .num "80000"), ("depreciation_amortization", .num "7000"),
        ("ebit", .num "73000"), ("interest", .num "4000"), ("taxes", .num "9000"),
        ("net_income", .num "60000")],
  .obj [("year", .num "3"), ("revenue", .num "650000"), ("cogs", .num "260000"),
        ("gross_profit", .num "390000"), ("operating_expenses", .num "200000"),
        ("ebitda", .num "190000"), ("depreciation_amortization", .num "10000"),
        ("ebit", .num "180000"), ("interest", .num "6000"), ("taxes", .num "24000"),
        ("net_income", .num "100000")]]

/-- Example data of the `balance_sheet` schema. -/
def exampleBalanceSheet : Jv := .arr [
  .obj [("year", .num "1"), ("assets", .num "300000"), ("current_assets", .num "150000"),
        ("non_current_assets", .num "150000"), ("liabilities", .num "200000"),
        ("current_liabilities", .num "100000"), ("non_current_liabilities", .num "100000"),
        ("equity", .num "100000")],
  .obj [("year", .num "2"), ("assets", .num "450000"), ("current_assets", .num "200000"),
        ("non_current_assets", .num "250000"), ("liabilities", .num "280000"),
        ("current_liabilities", .num "130000"), ("non_current_liabilities", .num "150000"),
        ("equity", .num "170000")],
  .obj [("year", .num "3"), ("assets", .num "650000"), ("current_assets", .num "280000"),
        ("non_current_assets", .num "370000"), ("liabilities", .num "380000"),
        ("current_liabilities", .num "180000"), ("non_current_liabilities", .num "200000"),
        ("equity", .num "270000")]]

/-- Example data of the `net_financial_position` schema. -/
def exampleNetPosition : Jv := .arr [
  .obj [("year", .num "1"), ("net_position", .num "-50000")],
  .obj [("year", .num "2"), ("net_position", .num "-30000")],
  .obj [("year", .num "3"), ("net_position", .num "10000")]]

/-- Example data of the `debt_structure` schema. -/
def exampleDebtStructure : Jv := .arr [
  .obj [("year", .num "1"), ("repayment", .num "10000"), ("interest_rate", .num "4.5"),
        ("outstanding_debt", .num "100000")],
  .obj [("year", .num "2"), ("repayment", .num "15000"), ("interest_rate", .num "4.2"),
        ("outstanding_debt", .num "85000")],
  .obj [("year", .num "3"), ("repayment", .num "20000"), ("interest_rate", .num "4.0"),
        ("outstanding_debt", .num "65000")]]

/-- Example data of the `key_ratios` schema. -/
def exampleKeyRatioData : Jv := .arr [
  .obj [("year", .num "1"), ("roi", .num "12.5"), ("roe", .num "15.2"),
        ("debt_to_equity", .num "2.0"), ("gross_margin", .num "60.0"),
        ("ebitda_margin", .num "12.0"), ("net_margin", .num "12.0"),
        ("current_ratio", .num "1.5"), ("quick_ratio", .num "1.2"),
        ("asset_turnover", .num "0.83")],
  .obj [("year", .num "2"), ("roi", .num "15.8"), ("roe", .num "18.5"),
        ("debt_to_equity", .num "1.65"), ("gross_margin", .num "60.0"),
        ("ebitda_margin", .num "20.0"), ("net_margin", .num "15.0"),
        ("current_ratio", .num "1.54"), ("quick_ratio", .num "1.25"),
        ("asset_turnover", .num "0.89")],
  .obj [("year", .num "3"), ("roi", .num "18.2"), ("roe", .num "22.1"),
        ("debt_to_equity", .num "1.41"), ("gross_margin", .num "60.0"),
        ("ebitda_margin", .num "29.2"), ("net_margin", .num "15.4"),
        ("current_ratio", .num "1.56"), ("quick_ratio", .num "1.3"),
        ("asset_turnover", .num "1.0")]]

/-- Example data of the `operating_cost_breakdown` schema. -/
def exampleOperatingCost : Jv := .arr [
  .obj [("year", .num "1"), ("revenue", .num "250000"), ("cogs", .num "100000"),
        ("employee_costs", .num "80000"), ("marketing", .num "20000"),
        ("rent", .num "15000"), ("administration", .num "10000"),
        ("amortization", .num "5000"), ("other_expenses", .num "5000"),
        ("interest_expenses", .num "2000"), ("tax", .num "3000"),
        ("quarterly_breakdown", .obj [
          ("q1_revenue", .num "50000"), ("q2_revenue", .num "60000"),
          ("q3_revenue", .num "65000"), ("q4_revenue", .num "75000"),
          ("q1_costs", .num "45000"), ("q2_costs", .num "52000"),
          ("q3_costs", .num "58000"), ("q4_costs", .num "65000")]),
        ("employee_analytics", .obj [
          ("management_costs", .num "35000"), ("operations_staff", .num "30000"),
          ("sales_team", .num "15000"), ("avg_salary_per_employee", .num "53333"),
          ("total_headcount", .num "5"), ("cost_per_employee", .num "16000"),
          ("productivity_ratio", .num "50000"), ("overtime_costs", .num "2500"),
          ("benefits_percentage", .num "15.0")]),
        ("marketing_analytics", .obj [
          ("digital_marketing", .num "12000"), ("traditional_marketing", .num "4000"),
          ("events_conferences", .num "2000"), ("content_creation", .num "1500"),
          ("paid_advertising", .num "8000"), ("cost_per_acquisition", .num "125"),
          ("marketing_roi", .num "12.5"), ("lead_generation_cost", .num "45"),
          ("conversion_cost", .num "85")]),
        ("operational_metrics", .obj [
          ("cost_per_unit_sold", .num "95"), ("variable_cost_ratio", .num "0.48"),
          ("fixed_cost_coverage", .num "1.8"), ("operational_leverage", .num "2.2"),
          ("cost_efficiency_index", .num "0.88"), ("break_even_units", .num "1750"),
          ("capacity_utilization", .num "0.72")]),
        ("cost_percentages", .obj [
          ("cogs_percent", .num "40.0"), ("employee_percent", .num "32.0"),
          ("marketing_percent", .num "8.0"), ("rent_percent", .num "6.0"),
          ("admin_percent", .num "4.0"), ("other_percent", .num "10.0")]),
        ("variance_analysis", .obj [
          ("budget_vs_actual_variance", .num "-5.2"), ("yoy_cost_growth_rate", .num "0.0"),
          ("cost_inflation_impact", .num "2.1"), ("efficiency_improvement", .num "0.0"),
          ("cost_per_revenue_ratio", .num "0.88")]),
        ("benchmarking_ratios", .obj [
          ("industry_avg_cogs", .num "42.0"), ("employee_cost_benchmark", .num "35.0"),
          ("marketing_spend_benchmark", .num "10.0"), ("admin_cost_benchmark", .num "5.5")])]]

/-- Example data of the `financial_analysis` schema. -/
def exampleFinancialAnalysis : Jv := .arr [
  .obj [("year", .num "2023"), ("gross_operating_cash_flow", .num "94739"),
        ("working_capital_change", .num "18872"),
        ("current_management_cash_flow", .num "113611"),
        ("operating_cash_flow", .num "-286389"),
        ("debt_service_cash_flow", .num "-287988"),
        ("shareholders_cash_flow", .num "112012"), ("net_cash_flow", .num "112012"),
        ("sales_revenue", .num "1405366"), ("production_value", .num "1405366"),
        ("gross_operating_margin", .num "130774"), ("ebit", .num "129157"),
        ("ebt", .num "127053"), ("net_income", .num "91523"), ("dividends", .num "0"),
        ("net_tangible_assets", .num "405516"), ("net_intangible_assets", .num "475"),
        ("financial_assets", .num "0"), ("trade_assets", .num "0"),
        ("inventory", .num "0"), ("deferred_liquidity", .num "102204"),
        ("immediate_liquidity", .num "112826"), ("equity", .num "167638"),
        ("long_term_debt", .num "430767"), ("short_term_debt", .num "22616"),
        ("net_financial_position", .num "323674"), ("mortgage_loans", .num "400000"),
        ("other_financial_debts", .num "36500"), ("cash_and_banks", .num "-112826")]]

/-- Example data of the `ratios_analysis` schema. -/
def exampleRatiosAnalysis : Jv := .arr [
  .obj [("year", .num "2023"), ("roi", .num "20.8"), ("roe", .num "54.6"),
        ("ros", .num "9.19"), ("ebit_margin", .num "6138.3"),
        ("net_debt_to_ebitda", .num "247.5"), ("net_debt_to_equity", .num "193.1"),
        ("net_debt_to_revenue", .num "23.0"), ("current_ratio", .num "9.5"),
        ("quick_ratio", .num "950.8"), ("debt_to_equity", .num "1.93"),
        ("treasury_margin", .num "192414"), ("structural_margin", .num "-238353"),
        ("net_working_capital", .num "192414"), ("altman_z_score", .num "3.7")]]

/-- Example data of the `production_sales_forecast` schema. -/
def exampleProductionForecast : Jv := .arr [
  .obj [("year", .num "2023"), ("sales_revenue", .num "1405366"),
        ("revenue_growth", .num "15.0"), ("units_sold", .num "10000"),
        ("average_price", .num "140.54"), ("unit_production_cost", .num "127.49"),
        ("unit_margin", .num "13.05")]]

/-- `INDIVIDUAL_SECTION_SCHEMAS` of `app/services.py`: the section registry,
in the source's declaration (and hence iteration) order. -/
def INDIVIDUAL_SECTION_SCHEMAS : List (String × SectionSchema) := [
  ("executive_summary", ⟨"string",
    "Summarize the overall business opportunity in 300+ words: include the core product or service, the market need it addresses, key team strengths, business traction (if any), and the long-term vision. Highlight why this business matters now. ",
    some 300, none⟩),
  ("business_overview", ⟨"string",
    "Describe the company\x27s mission, vision, and founding story. Include when and why it was started, what goals it seeks to achieve, where it is currently based, and what motivates the team behind it.",
    some 500, none⟩),
  ("market_analysis", ⟨"string",
    "Provide a analysis of the market: total addressable market (TAM), serviceable available market (SAM), and obtainable market (SOM). Identify competitors, customer segments, market trends, and why the timing is right for this solution.",
    some 700, none⟩),
  ("business_model", ⟨"string",
    "Explain how the business makes money. Describe primary and secondary revenue streams, customer acquisition strategy, pricing model, cost structure, margins, and how the model scales over time.",
    some 500, none⟩),
  ("marketing_and_sales_strategy", ⟨"string",
    "Describe how the business plans to go to market. Include positioning, target customers, sales channels (online/offline), customer acquisition cost (CAC) strategies, conversion funnels, and how growth will be driven operationally.",
    some 500, none⟩),
  ("financial_highlights", ⟨"json",
    "5 years of key financial metrics. DO NOT JUST PUT THE NUMBERS AS IN THE EXAMPLE. PROVIDE REALISTIC NUMERICAL DATAS.",
    none, some exampleFinancialHighlights⟩),
  ("cash_flow_analysis", ⟨"json",
    "5 years of cash flow statement following standard format. DO NOT JUST PUT THE NUMBERS AS IN THE EXAMPLE. PROVIDE REALISTIC NUMERICAL DATAS.",
    none, some exampleCashFlow⟩),
  ("profit_and_loss_projection", ⟨"json",
    "5 years of profit & loss statement with detailed breakdown. DO NOT JUST PUT THE NUMBERS AS IN THE EXAMPLE. PROVIDE REALISTIC NUMERICAL DATAS.",
    none, some examplePnl⟩),
  ("balance_sheet", ⟨"json",
    "5 years of balance sheet with detailed breakdown. DO NOT JUST PUT THE NUMBERS AS IN THE EXAMPLE. PROVIDE REALISTIC NUMERICAL DATAS.",
    none, some exampleBalanceSheet⟩),
  ("net_financial_position", ⟨"json",
    "5 years of net financial position. DO NOT JUST PUT THE NUMBERS AS IN THE EXAMPLE. PROVIDE REALISTIC NUMERICAL DATAS.",
    none, some exampleNetPosition⟩),
  ("debt_structure", ⟨"json",
    "5 years of debt structure and repayment schedule. DO NOT JUST PUT THE NUMBERS AS IN THE EXAMPLE. PROVIDE REALISTIC NUMERICAL DATAS.",
    none, some exampleDebtStructure⟩),
  ("key_ratios", ⟨"json",
    "5 years of key financial ratios. DO NOT JUST PUT THE NUMBERS AS IN THE EXAMPLE. PROVIDE REALISTIC NUMERICAL DATAS.",
    none, some exampleKeyRatioData⟩),
  ("operating_cost_breakdown", ⟨"json",
    "5 years of comprehensive operating cost breakdown following Italian GAAP (OIC standards) and D.Lgs. 127/91 requirements, with extensive numerical analysis specific to Italian business environment. Include quarterly breakdown reflecting Italian seasonal business patterns, cost growth rates accounting for Italian inflation trends, variance analysis using Italian industry benchmarks, and operational KPIs relevant to Italian market conditions. Provide detailed subcategory metrics with percentage changes based on Italian labor costs (including 13th/14th month salaries, TFR contributions, INPS/INAIL contributions), Italian tax structure (IRES, IRAP), regional business costs variations across Northern/Central/Southern Italy, and compliance with Italian employment regulations. Factor in Italian-specific costs like commercialista fees, camera di commercio fees, regional tax variations, and sector-specific Italian regulations. DO NOT JUST PUT THE NUMBERS AS IN THE EXAMPLE. PROVIDE REALISTIC NUMERICAL DATAS.",
    none, some exampleOperatingCost⟩),
  ("sector_strategy", ⟨"string",
    "Provide a detailed strategy outlining how the company will operate within its specific industry sector. This should include analysis of current sector trends, competitive landscape, regulatory environment, key success factors, and how the business will position itself to gain a competitive advantage over time.",
    some 300, none⟩),
  ("funding_sources", ⟨"string",
    "Explain in detail  all current and future funding sources, including but not limited to equity investment, loans, grants, crowdfunding, or internal cash flow. Specify amounts, stages of funding, potential investors or lenders, and how the funds will be allocated within the business.",
    some 300, none⟩),
  ("operations_plan", ⟨"string",
    "Describe in depth the company\x27s operation plan, and any strategic moves. Include what the business will do to execute its strategy, including any strategic partnerships, collaborations, or acquisitions. Explain how the business will manage risks and opportunities, and how it will adapt to changing market conditions.",
    some 300, none⟩),
  ("financial_analysis", ⟨"json",
    "Comprehensive Italian financial analysis following Wayne SRL example structure. Include detailed breakdown of financial position, cash flow analysis, and key Italian financial metrics. Follow Italian GAAP standards and D.Lgs. 127/91 requirements.",
    none, some exampleFinancialAnalysis⟩),
  ("ratios_analysis", ⟨"json",
    "Detailed Italian financial ratios analysis following Wayne SRL example. Include ROI, ROE, ROS, debt ratios, and other key Italian financial indicators.",
    none, some exampleRatiosAnalysis⟩),
  ("management_team", ⟨"string",
    "Detailed description of the management team following Italian business standards. Include roles, experience, and responsibilities of each key team member.",
    some 800, none⟩),
  ("production_sales_forecast", ⟨"json",
    "Production and sales forecast following Italian market patterns. Include detailed projections for revenue growth, market expansion, and production capacity.",
    none, some exampleProductionForecast⟩)]

/-- `INDIVIDUAL_SECTION_SCHEMAS[key]` as a total lookup (`none` models a
`KeyError`). -/
def lookupSchema (key : String) : Option SectionSchema :=
  (INDIVIDUAL_SECTION_SCHEMAS.find? (fun e => e.1 == key)).map (·.2)

/-- The registry's key list, in declaration order. -/
def registryKeys : List String := INDIVIDUAL_SECTION_SCHEMAS.map Prod.fst

/-- `schema.get("min_words", 0)`. -/
def SectionSchema.getMinWords (sch : SectionSchema) : Nat := sch.min_words.getD 0

/-- Whether `pat` is a leading run of `l` (character-wise). -/
def startsWithChars : List Char → List Char → Bool
  | [], _ => true
  | _ :: _, [] => false
  | a :: as, b :: bs => a == b && startsWithChars as bs

/-- Python's `pat in s` for strings: substring occurrence. -/
def hasSubstr (pat : List Char) : List Char → Bool
  | [] => startsWithChars pat []
  | l@(_ :: rest) => startsWithChars pat l || hasSubstr pat rest

/-- Python dictionary lookup on the field list of a parsed JSON object.
`json.loads` keeps the last of duplicate keys, so the lookup scans from the
end. -/
def pyDictLookup (fs : List (String × Jv)) (k : String) : Option Jv :=
  (fs.reverse.find? (fun e => e.1 == k)).map (·.2)

/-- Outcome of the in-attempt checks of `call_individual_section` on a value
`parsed` that `json.loads` produced:
* `pass result` — all checks passed; the attempt executes `return result`;
* `wordShort result` — a narrative value passed the string checks but its
  word count is below `min_words * 0.8`; the attempt retries via `continue`
  when attempts remain and otherwise falls through to `return result`;
* `innerFail` — a `ValueError` was raised inside the inner `try` (missing
  key, non-string / too-short narrative value, non-list / short tabular
  value), caught by `except (ValueError, json.JSONDecodeError)`;
* `outerFail` — an exception other than `ValueError` escaped the inner
  handler (a `TypeError` from `in` / indexing on a non-container), caught by
  the outer `except Exception`. -/
inductive CheckOutcome where
  | pass (result : Jv)
  | wordShort (result : Jv)
  | innerFail
  | outerFail

/-- The validation part of one attempt of `call_individual_section`, given
the value `parsed` returned by `json.loads(clean_json_response(content))`:
the `section_key not in result` test, the extraction of
`result[section_key]`, and the per-type content checks.  Note the content
checks compare the schema's `"type"` against `"string"` and `"array"`; the
registry's tabular sections are declared with type `"json"`, which matches
neither branch. -/
def sectionCheck (key : String) (sch : SectionSchema) (parsed : Jv) : CheckOutcome :=
  match parsed with
  | .obj fs =>
    match pyDictLookup fs key with
    | none => .innerFail
    | some sc =>
      if sch.type_ = "string" then
        match sc with
        | .str s =>
          if (pyStripList s.data).length < 50 then .innerFail
          else if 10 * wordCount s < 8 * sch.getMinWords then .wordShort parsed
          else .pass parsed
        | _ => .innerFail
      else if sch.type_ = "array" then
        match sc with
        | .arr xs => if xs.length < 3 then .innerFail else .pass parsed
        | _ => .innerFail
      else .pass parsed
  | .arr xs =>
    -- `key not in list` is an equality scan; when the key string IS an
    -- element, `result[section_key]` indexes a list with a string: TypeError.
    if xs.any (fun v => match v with | .str s => s == key | _ => false)
    then .outerFail else .innerFail
  | .str s =>
    -- `key not in str` is a substring test; indexing a string with a string
    -- raises TypeError.
    if hasSubstr key.data s.data then .outerFail else .innerFail
  | _ => .outerFail  -- `in` on a number, boolean or None raises TypeError

/-- The reply the transport produces for one attempt: either an exception
from `client.chat.completions.create` (connection error, non-2xx status, …)
or the text content of the reply. -/
inductive AttemptOutcome where
  | transportErr
  | reply (content : String)

/-- The value `create_empty_individual_section` builds for a known key:
`{key: ""}` for `"type" == "string"` and `{key: []}` otherwise. -/
def emptySectionJv (key : String) (sch : SectionSchema) : Jv :=
  if sch.type_ = "string" then .obj [(key, .str "")] else .obj [(key, .arr [])]

/-- `create_empty_individual_section(section_key)` of `app/services.py`
(`none` models the `KeyError` on an unknown key). -/
def create_empty_individual_section (key : String) : Option Jv :=
  (lookupSchema key).map (emptySectionJv key)

/-- Result of the retry loop of `call_individual_section`: the returned
value (`none` models Python's implicit `return None` when the `for` loop
completes without returning, which happens only for `max_retries = 0`) and
the number of transport calls that were dispatched. -/
structure CallTrace where
  result : Option Jv
  calls : Nat

/-- The `for attempt in range(max_retries)` loop of
`call_individual_section`.  `remaining` is the number of loop iterations
still to run (`max_retries - attempt`), so `remaining = 1` exactly on the
last attempt; `attempt` indexes the oracle; `calls` counts dispatched
transport calls.  Each iteration makes one transport call; its reply is
`.strip()`-ed, repaired by `clean_json_response` and parsed by the `loads`
oracle, and the checks of `sectionCheck` decide between returning, retrying
and (on the last attempt) the empty default. -/
def csLoop (loads : String → Option Jv) (key : String) (sch : SectionSchema)
    (oracle : Nat → AttemptOutcome) : Nat → Nat → Nat → CallTrace
  | 0, _, calls => ⟨none, calls⟩
  | remaining + 1, attempt, calls =>
    match oracle attempt with
    | .transportErr =>
      -- outer `except Exception`: empty default on the last attempt,
      -- exponential backoff and retry otherwise
      if remaining = 0 then ⟨some (emptySectionJv key sch), calls + 1⟩
      else csLoop loads key sch oracle remaining (attempt + 1) (calls + 1)
    | .reply content =>
      match loads (clean_json_response (pyStrip content)) with
      | none =>
        -- json.JSONDecodeError: inner handler, retry after sleep(1)
        if remaining = 0 then ⟨some (emptySectionJv key sch), calls + 1⟩
        else csLoop loads key sch oracle remaining (attempt + 1) (calls + 1)
      | some parsed =>
        match sectionCheck key sch parsed with
        | .pass result => ⟨some result, calls + 1⟩
        | .wordShort result =>
          -- `continue` when attempts remain, otherwise fall through to
          -- `return result`
          if remaining = 0 then ⟨some result, calls + 1⟩
          else csLoop loads key sch oracle remaining (attempt + 1) (calls + 1)
        | .innerFail =>
          if remaining = 0 then ⟨some (emptySectionJv key sch), calls + 1⟩
          else csLoop loads key sch oracle remaining (attempt + 1) (calls + 1)
        | .outerFail =>
          if remaining = 0 then ⟨some (emptySectionJv key sch), calls + 1⟩
          else csLoop loads key sch oracle remaining (attempt + 1) (calls + 1)

/-- `call_individual_section` of `app/services.py`.  The prompt is built
before the loop, so an unknown key raises `ValueError` to the caller
(modelled by `.error`); for a known key the retry loop always returns.  The
reply of each attempt is given by `oracle`; `loads` models `json.loads`. -/
def call_individual_section (loads : String → Option Jv) (key : String)
    (oracle : Nat → AttemptOutcome) (maxRetries : Nat) : Except String CallTrace :=
  match lookupSchema key with
  | none => .error ("Unknown section: " ++ key)
  | some sch => .ok (csLoop loads key sch oracle maxRetries 0 0)

/-- The per-key default the merge loop of `generate_business_plan` inserts
when a section job fails or returns an unusable result:
`"" if type == "string" else []`. -/
def sectionDefault (sch : SectionSchema) : Jv :=
  if sch.type_ = "string" then .str "" else .arr []

/-- The merge step of `generate_business_plan` for one registry entry:
await the section task, keep `result[section_key]` when the result is a
dict that contains the key, and fall back to the kind default otherwise
(also when awaiting raised).  Returns the merged value together with the
number of transport calls the job made. -/
def mergeEntry (loads : String → Option Jv) (oracle : String → Nat → AttemptOutcome)
    (e : String × SectionSchema) : Jv × Nat :=
  match call_individual_section loads e.1 (oracle e.1) 3 with
  | .error _ => (sectionDefault e.2, 0)
  | .ok t =>
    match t.result with
    | some v =>
      match v with
      | .obj fs =>
        match pyDictLookup fs e.1 with
        | some x => (x, t.calls)
        | none => (sectionDefault e.2, t.calls)
      | _ => (sectionDefault e.2, t.calls)
    | none => (sectionDefault e.2, t.calls)

/-- The body of the `try` block of `generate_business_plan`: one section
job per registry key, merged in registry order; also returns the total
number of transport calls. -/
def generate_business_plan_core (loads : String → Option Jv)
    (oracle : String → Nat → AttemptOutcome) : List (String × Jv) × Nat :=
  (INDIVIDUAL_SECTION_SCHEMAS.map (fun e => (e.1, (mergeEntry loads oracle e).1)),
   (INDIVIDUAL_SECTION_SCHEMAS.map (fun e => (mergeEntry loads oracle e).2)).sum)

/-- The `except` fallback of `generate_business_plan`: every registry key
bound to its kind default. -/
def empty_plan : List (String × Jv) :=
  INDIVIDUAL_SECTION_SCHEMAS.map (fun e => (e.1, sectionDefault e.2))

/-- `generate_business_plan` of `app/services.py`.  `outerDefect = true`
models an unexpected exception raised inside the `try` block outside the
per-job boundary, in which case the `except` branch returns the all-empty
plan instead of raising. -/
def generate_business_plan (loads : String → Option Jv)
    (oracle : String → Nat → AttemptOutcome) (outerDefect : Bool) : List (String × Jv) :=
  if outerDefect then empty_plan else (generate_business_plan_core loads oracle).1

/-- Lookup in the merged document (keys are unique, so first match). -/
def docLookup (d : List (String × Jv)) (k : String) : Option Jv :=
  (d.find? (fun e => e.1 == k)).map (·.2)

/-- JSON string escaping as `json.dumps` performs it on the ASCII data of
the registry (quote, backslash and the common control characters). -/
def jsonEscapeChar (c : Char) : String :=
  if c = '"' then "\\\""
  else if c = '\\' then "\\\\"
  else if c = '\n' then "\\n"
  else if c = '\t' then "\\t"
  else if c = '\r' then "\\r"
  else String.singleton c

/-- Escape a whole string for JSON output. -/
def jsonEscape (s : String) : String := String.join (s.data.map jsonEscapeChar)

/-- A run of `n` spaces (the indentation of `json.dumps(..., indent=2)`). -/
def indentPad (n : Nat) : String := ⟨List.replicate n ' '⟩

mutual

/-- `json.dumps(value, indent=2)` at indentation level `ind`: containers
open on their own line, members are indented two further spaces and
separated by `",\n"`, keys are separated from values by `": "`, and empty
containers print inline. -/
def dumpVal (ind : Nat) : Jv → String
  | .null => "null"
  | .bool b => if b then "true" else "false"
  | .num t => t
  | .str s => "\"" ++ jsonEscape s ++ "\""
  | .arr [] => "[]"
  | .arr (x :: xs) =>
    "[\n" ++ indentPad (ind + 2) ++ dumpVal (ind + 2) x ++ dumpItems (ind + 2) xs
      ++ "\n" ++ indentPad ind ++ "]"
  | .obj [] => "\x7b\x7d"
  | .obj ((k, v) :: fs) =>
    "\x7b\n" ++ indentPad (ind + 2) ++ "\"" ++ jsonEscape k ++ "\": "
      ++ dumpVal (ind + 2) v ++ dumpFields (ind + 2) fs
      ++ "\n" ++ indentPad ind ++ "\x7d"

/-- The remaining members of an array being dumped. -/
def dumpItems (ind : Nat) : List Jv → String
  | [] => ""
  | x :: xs => ",\n" ++ indentPad ind ++ dumpVal ind x ++ dumpItems ind xs

/-- The remaining members of an object being dumped. -/
def dumpFields (ind : Nat) : List (String × Jv) → String
  | [] => ""
  | (k, v) :: fs =>
    ",\n" ++ indentPad ind ++ "\"" ++ jsonEscape k ++ "\": " ++ dumpVal ind v
      ++ dumpFields ind fs

end

/-- `build_individual_section_prompt` of `app/services.py`: a pure function
of the section key, language and currency.  An unknown key raises
`ValueError` (modelled by `.error`); otherwise the prompt text is assembled
from the registry entry exactly as the source's f-string templates do
(literal braces are written `\x7b`/`\x7d`, the apostrophe `\x27`). -/
def build_individual_section_prompt (section_key : String)
    (language : String) (currency : String) : Except String String :=
  match lookupSchema section_key with
  | none => .error ("Unknown section: " ++ section_key)
  | some schema =>
    let description := schema.description
    if schema.type_ = "string" then
      let min_words := toString schema.getMinWords
      .ok ("\nYou are a senior business plan expert. Generate ONLY the " ++ section_key
        ++ " section for a comprehensive business plan.\n\nREQUIREMENTS:\n- Language: "
        ++ language
        ++ "\n- Currency: All amounts in " ++ currency
        ++ "\n- Word Count: Minimum " ++ min_words ++ " words"
        ++ "\n- Format: Return ONLY a JSON object with the key \"" ++ section_key
        ++ "\" and its content"
        ++ "\n\nSECTION DESCRIPTION: " ++ description
        ++ "\n\nCRITICAL INSTRUCTIONS:"
        ++ "\n1. Output ONLY valid JSON in this exact format: \x7b\"" ++ section_key
        ++ "\": \"your content here\"\x7d"
        ++ "\n2. The content must be at least " ++ min_words ++ " words"
        ++ "\n3. No markdown, no comments, no text outside JSON"
        ++ "\n4. Content must be comprehensive and professional"
        ++ "\n\nExample format:\n\x7b\"" ++ section_key
        ++ "\": \"Your detailed content here that meets the word count requirement...\"\x7d\n")
    else
      let example_json := dumpVal 0 (Jv.obj [(section_key, schema.example_.getD (Jv.arr []))])
      .ok ("\nYou are a senior financial analyst. Generate ONLY the " ++ section_key
        ++ " section for a comprehensive business plan.\n\nREQUIREMENTS:\n- Language: "
        ++ language
        ++ "\n- Currency: All amounts in " ++ currency
        ++ "\n- Format: Return ONLY a JSON object with the key \"" ++ section_key
        ++ "\" and its array content"
        ++ "\n- Financial Standards: Follow Italian D.Lgs. 127/91 (CEE layout)"
        ++ "\n\nSECTION DESCRIPTION: " ++ description
        ++ "\n\nREQUIRED STRUCTURE:\n" ++ example_json
        ++ "\n\nCRITICAL INSTRUCTIONS:"
        ++ "\n1. Output ONLY valid JSON in the exact format shown above"
        ++ "\n2. Generate 5 years of data (year 1, 2, 3, 4, 5)"
        ++ "\n3. All financial data must be consistent and realistic"
        ++ "\n4. Numbers must follow logical progression"
        ++ "\n5. No markdown, no comments, no text outside JSON"
        ++ "\n6. PRIORITIZE FRENCH MARKET. LIKE IF IT\x27S A FOOD INDUSTRY, REMEMBER FOOD COSTS ACCOUNTS FOR ABOUT 25-30% OF REVENUE. "
        ++ "\n7. FOLLOW THE ITALIAN BENCHMARK"
        ++ "\n\nThe JSON must have exactly this structure with these field names.\n")

/-- `max_input_length` of `generate_business_plan`. -/
def max_input_length : Nat := 122000

/-- The per-item cap of `generate_business_plan` on string inputs:
`item[:122000] + "..."` when the item is longer than `max_input_length`.
(Non-string items are passed through `str(...)` uncapped; the model takes
the items as strings, on which `str` is the identity.) -/
def capInputItem (s : String) : String :=
  if s.data.length > max_input_length then ⟨s.data.take max_input_length ++ "...".data⟩
  else s

/-- The context assembly of `generate_business_plan`: the capped input
items as `"- "` bullet lines under a header, followed by the capped
uploaded-file text when present. -/
def buildBusinessContext (userInput : List String) (uploadedFile : Option String) : String :=
  let business_context := userInput.map capInputItem
  let base := "Business Plan Analysis:\n"
  let withItems :=
    if business_context.isEmpty then base
    else base ++ String.intercalate "\n" (business_context.map (fun item => "- " ++ item))
  match uploadedFile with
  | none => withItems
  | some f =>
    let capped :=
      if f.data.length > max_input_length then
        String.mk (f.data.take max_input_length ++ "...".data)
      else f
    withItems ++ "\nDocument Analysis:\n" ++ capped

/-- One chat message of the transport boundary. -/
structure ChatMessage where
  role : String
  content : String
deriving DecidableEq

/-- The truncation `GroqClient.create_chat_completion` of `app/config.py`
applies to each message before posting:
`content[:8000] + "..."` whenever the content exceeds 8000 characters. -/
def truncateMessage (m : ChatMessage) : ChatMessage :=
  if m.content.data.length > 8000 then ⟨m.role, ⟨m.content.data.take 8000 ++ "...".data⟩⟩
  else m

/-- The `truncated_messages` list that `GroqClient.create_chat_completion`
sends upstream in place of the submitted messages. -/
def create_chat_completion_messages (messages : List ChatMessage) : List ChatMessage :=
  messages.map truncateMessage

/-- How one attempt of the retry loop resolves: `accept` (the checks
passed and the parsed value is returned), `short` (a narrative value below
the word-count threshold: retried, except that the last attempt returns it
anyway) or `fail` (transport exception, unparseable reply, or a check that
raised: retried, the last attempt returning the empty default). -/
inductive AttemptClass where
  | accept (v : Jv)
  | short (v : Jv)
  | fail

/-- Classify one attempt of the retry loop by the branch of
`call_individual_section` it takes. -/
def classifyAttempt (loads : String → Option Jv) (key : String)
    (sch : SectionSchema) : AttemptOutcome → AttemptClass
  | .transportErr => .fail
  | .reply content =>
    match loads (clean_json_response (pyStrip content)) with
    | none => .fail
    | some parsed =>
      match sectionCheck key sch parsed with
      | .pass r => .accept r
      | .wordShort r => .short r
      | .innerFail => .fail
      | .outerFail => .fail

/-- Whether one attempt of the retry loop ends in a repair failure: a
transport exception, an unparseable reply, or a reply whose checks raise
(`innerFail` / `outerFail`).  Word-count shortfalls are deliberately not
repair failures — the loop treats them differently on the last attempt. -/
def attemptRepairFails (loads : String → Option Jv) (key : String)
    (sch : SectionSchema) (o : AttemptOutcome) : Bool :=
  match classifyAttempt loads key sch o with
  | .fail => true
  | _ => false

/-- Two records shaped like the `financial_highlights` example — one fewer
than the five reporting years the schema demands and fewer than the three
the dead `"array"` validation branch would require. -/
def twoRecords : List Jv := [
  .obj [("year", .num "1"), ("revenue", .num "250000"), ("net_income", .num "30"),
        ("capex", .num "50000"), ("debt_repayment", .num "10000")],
  .obj [("year", .num "2"), ("revenue", .num "400000"), ("net_income", .num "60"),
        ("capex", .num "70000"), ("debt_repayment", .num "15000")]]

/-- A parsed reply `{"financial_highlights": [r1, r2]}` with only two
records. -/
def twoRecordReply : Jv := .obj [("financial_highlights", .arr twoRecords)]

/-- A 239-word text: one word below the `executive_summary` threshold of
`min_words * 0.8 = 240` words, but far above the 50-character sanity
floor. -/
def shortText : String := String.intercalate " " (List.replicate 239 "w")

/-- A parsed reply binding `executive_summary` to the short text. -/
def shortNarrativeObj : Jv := .obj [("executive_summary", .str shortText)]

/-- A 240-word text: exactly the `executive_summary` threshold. -/
def passText : String := String.intercalate " " (List.replicate 240 "w")

/-- A parsed reply binding `executive_summary` to the threshold text. -/
def passNarrativeObj : Jv := .obj [("executive_summary", .str passText)]

/-- The registry entry of `executive_summary`. -/
def lookedUpExec : SectionSchema :=
  (lookupSchema "executive_summary").getD ⟨"", "", none, none⟩

/-- A raw reply: a fenced JSON object followed by trailing prose that
itself contains a brace. -/
def fencedReplyCounterexample : String :=
  "```json\n\x7b\"k\": \"v\"\x7d\n```\nsee \x7bfig\x7d and more"

/-- The object embedded in `fencedReplyCounterexample`. -/
def embeddedObjectText : String := "\x7b\"k\": \"v\"\x7d"

/-! Helper lemmas about the registry, the merge map and the retry loop. -/

theorem find?_entry_map (f : String × SectionSchema → Jv)
    (l : List (String × SectionSchema)) (k : String) :
    (l.map (fun e => (e.1, f e))).find? (fun e => e.1 == k)
      = (l.find? (fun e => e.1 == k)).map (fun e => (e.1, f e)) := by
  induction l with
  | nil => rfl
  | cons a t ih =>
    simp only [List.map_cons, List.find?]
    by_cases h : a.1 == k
    · simp [h]
    · simp only [h]; exact ih

theorem map_entry_fst (f : String × SectionSchema → Jv)
    (l : List (String × SectionSchema)) :
    (l.map (fun e => (e.1, f e))).map Prod.fst = l.map Prod.fst := by
  induction l with
  | nil => rfl
  | cons a t ih => simp only [List.map_cons, ih]

theorem lookupSchema_elim (k : String) (sch : SectionSchema)
    (h : lookupSchema k = some sch) :
    INDIVIDUAL_SECTION_SCHEMAS.find? (fun e => e.1 == k) = some (k, sch) := by
  unfold lookupSchema at h
  obtain ⟨e, he, h2⟩ := Option.map_eq_some'.mp h
  have hk : e.1 = k := by
    have := List.find?_some he
    simpa using this
  have : e = (k, sch) := by
    cases e; simp_all
  rw [← this]; exact he

theorem docLookup_entry_map (f : String × SectionSchema → Jv) (k : String)
    (sch : SectionSchema) (h : lookupSchema k = some sch) :
    docLookup (INDIVIDUAL_SECTION_SCHEMAS.map (fun e => (e.1, f e))) k
      = some (f (k, sch)) := by
  unfold docLookup
  rw [find?_entry_map, lookupSchema_elim k sch h]
  rfl

theorem lookupSchema_mem (k : String) (sch : SectionSchema)
    (h : lookupSchema k = some sch) : (k, sch) ∈ INDIVIDUAL_SECTION_SCHEMAS :=
  List.mem_of_find?_eq_some (lookupSchema_elim k sch h)

theorem csLoop_succ_eq (loads : String → Option Jv) (key : String)
    (sch : SectionSchema) (oracle : Nat → AttemptOutcome) (n att calls : Nat) :
    csLoop loads key sch oracle (n + 1) att calls =
      match classifyAttempt loads key sch (oracle att) with
      | .accept r => ⟨some r, calls + 1⟩
      | .short r =>
        if n = 0 then ⟨some r, calls + 1⟩
        else csLoop loads key sch oracle n (att + 1) (calls + 1)
      | .fail =>
        if n = 0 then ⟨some (emptySectionJv key sch), calls + 1⟩
        else csLoop loads key sch oracle n (att + 1) (calls + 1) := by
  cases hor : oracle att with
  | transportErr => simp [csLoop, classifyAttempt, hor]
  | reply content =>
    cases hl : loads (clean_json_response (pyStrip content)) with
    | none => simp [csLoop, classifyAttempt, hor, hl]
    | some parsed =>
      cases hc : sectionCheck key sch parsed with
      | pass r => simp [csLoop, classifyAttempt, hor, hl, hc]
      | wordShort r => simp [csLoop, classifyAttempt, hor, hl, hc]
      | innerFail => simp [csLoop, classifyAttempt, hor, hl, hc]
      | outerFail => simp [csLoop, classifyAttempt, hor, hl, hc]

theorem csLoop_calls_mono (loads : String → Option Jv) (key : String)
    (sch : SectionSchema) (oracle : Nat → AttemptOutcome) :
    ∀ rem att calls, calls ≤ (csLoop loads key sch oracle rem att calls).calls := by
  intro rem
  induction rem with
  | zero => intro att calls; exact Nat.le_refl _
  | succ n ih =>
    intro att calls
    have hrec : calls ≤ (csLoop loads key sch oracle n (att + 1) (calls + 1)).calls :=
      Nat.le_trans (Nat.le_succ _) (ih (att + 1) (calls + 1))
    rw [csLoop_succ_eq]
    cases classifyAttempt loads key sch (oracle att) with
    | accept r => exact Nat.le_succ _
    | short r =>
      by_cases h : n = 0
      · simp only [h, if_pos]; exact Nat.le_succ _
      · simp only [h, if_neg, not_false_iff]; exact hrec
    | fail =>
      by_cases h : n = 0
      · simp only [h, if_pos]; exact Nat.le_succ _
      · simp only [h, if_neg, not_false_iff]; exact hrec

theorem csLoop_calls_le (loads : String → Option Jv) (key : String)
    (sch : SectionSchema) (oracle : Nat → AttemptOutcome) :
    ∀ rem att calls, (csLoop loads key sch oracle rem att calls).calls ≤ calls + rem := by
  intro rem
  induction rem with
  | zero => intro att calls; simp [csLoop]
  | succ n ih =>
    intro att calls
    have hrec : (csLoop loads key sch oracle n (att + 1) (calls + 1)).calls ≤ calls + (n + 1) := by
      have := ih (att + 1) (calls + 1)
      omega
    rw [csLoop_succ_eq]
    cases classifyAttempt loads key sch (oracle att) with
    | accept r => show calls + 1 ≤ calls + (n + 1); omega
    | short r =>
      by_cases h : n = 0
      · simp only [h, if_pos]; show calls + 1 ≤ calls + (0 + 1); omega
      · simp only [h, if_neg, not_false_iff]; exact hrec
    | fail =>
      by_cases h : n = 0
      · simp only [h, if_pos]; show calls + 1 ≤ calls + (0 + 1); omega
      · simp only [h, if_neg, not_false_iff]; exact hrec

theorem csLoop_calls_progress (loads : String → Option Jv) (key : String)
    (sch : SectionSchema) (oracle : Nat → AttemptOutcome) :
    ∀ rem att calls, 0 < rem →
      calls + 1 ≤ (csLoop loads key sch oracle rem att calls).calls := by
  intro rem att calls hrem
  match rem, hrem with
  | n + 1, _ =>
    have hrec := csLoop_calls_mono loads key sch oracle n (att + 1) (calls + 1)
    rw [csLoop_succ_eq]
    cases classifyAttempt loads key sch (oracle att) with
    | accept r => exact Nat.le_refl _
    | short r =>
      by_cases h : n = 0
      · simp only [h, if_pos]; exact Nat.le_refl _
      · simp only [h, if_neg, not_false_iff]; exact hrec
    | fail =>
      by_cases h : n = 0
      · simp only [h, if_pos]; exact Nat.le_refl _
      · simp only [h, if_neg, not_false_iff]; exact hrec

theorem csLoop_all_fail (loads : String → Option Jv) (key : String)
    (sch : SectionSchema) (oracle : Nat → AttemptOutcome) :
    ∀ rem att calls, 0 < rem →
      (∀ i, att ≤ i → i < att + rem → attemptRepairFails loads key sch (oracle i) = true) →
      csLoop loads key sch oracle rem att calls
        = ⟨some (emptySectionJv key sch), calls + rem⟩ := by
  intro rem
  induction rem with
  | zero => intro att calls h; omega
  | succ n ih =>
    intro att calls _ hfail
    have h0 : attemptRepairFails loads key sch (oracle att) = true :=
      hfail att (Nat.le_refl _) (by omega)
    unfold attemptRepairFails at h0
    have hrec : n ≠ 0 → csLoop loads key sch oracle n (att + 1) (calls + 1)
        = ⟨some (emptySectionJv key sch), calls + (n + 1)⟩ := by
      intro hn
      rw [ih (att + 1) (calls + 1) (by omega) (fun i h1 h2 => hfail i (by omega) (by omega))]
      simp only [CallTrace.mk.injEq, true_and]
      omega
    rw [csLoop_succ_eq]
    cases hc : classifyAttempt loads key sch (oracle att) with
    | accept r => rw [hc] at h0; simp at h0
    | short r => rw [hc] at h0; simp at h0
    | fail =>
      by_cases h : n = 0
      · subst h; simp
      · simp only [h, if_neg, not_false_iff]
        exact hrec h

/-! Claim theorems. -/

/-- C2: for the json-typed (tabular) sections the claim that a parsed list
shorter than `minRecords` fails validation is violated by the code: the
validation `elif` compares the schema type against `"array"`, but every
tabular registry entry declares `"json"`, so no list-length check runs.  A
two-record `financial_highlights` reply — fewer than the three records the
dead branch would demand and fewer than the five years the schema asks
for — passes validation and is returned on the first attempt; the second
conjunct certifies the branch is dead for every registry entry. -/
theorem tabular_short_list_accepted :
    call_individual_section (fun _ => some twoRecordReply) "financial_highlights"
        (fun _ => .reply "") 3 = .ok ⟨some twoRecordReply, 1⟩ ∧
    twoRecords.length = 2 ∧
    INDIVIDUAL_SECTION_SCHEMAS.all (fun e => !(e.2.type_ == "array")) = true :=
  ⟨rfl, rfl, rfl⟩

/-- C4: for every registry key the empty default produced on exhaustion
matches the key's declared kind — the kind is `"string"` or `"json"` and
never anything else, a `"string"` (narrative) key defaults to the empty
string and a `"json"` (tabular) key to the empty list, never `null` and
never a value of the other kind. -/
theorem empty_default_matches_kind :
    ∀ k sch, lookupSchema k = some sch →
      (sch.type_ = "string" ∨ sch.type_ = "json") ∧
      (sch.type_ = "string" →
        create_empty_individual_section k = some (Jv.obj [(k, Jv.str "")])) ∧
      (sch.type_ = "json" →
        create_empty_individual_section k = some (Jv.obj [(k, Jv.arr [])])) := by
  intro k sch h
  have hmem : (k, sch) ∈ INDIVIDUAL_SECTION_SCHEMAS := lookupSchema_mem k sch h
  have hkinds : INDIVIDUAL_SECTION_SCHEMAS.all
      (fun e => e.2.type_ == "string" || e.2.type_ == "json") = true := by decide
  have hk := List.all_eq_true.mp hkinds _ hmem
  refine ⟨by simpa using hk, ?_, ?_⟩
  · intro hs
    unfold create_empty_individual_section
    rw [h]
    simp [emptySectionJv, hs]
  · intro hj
    unfold create_empty_individual_section
    rw [h]
    have : sch.type_ ≠ "string" := by rw [hj]; decide
    simp [emptySectionJv, this]

/-- C4 witness: the first registry key. -/
theorem empty_default_matches_kind_witness :
    create_empty_individual_section "executive_summary"
      = some (Jv.obj [("executive_summary", Jv.str "")]) :=
  (empty_default_matches_kind "executive_summary" lookedUpExec rfl).2.1 rfl

/-- C9: the prompt builder is deterministic — two runs on equal
`(section_key, language, currency)` inputs yield the identical prompt; in
the embedding the builder is a pure function of these three arguments and
the process-constant registry. -/
theorem prompt_builder_deterministic :
    ∀ k1 k2 l1 l2 c1 c2 : String, k1 = k2 → l1 = l2 → c1 = c2 →
      build_individual_section_prompt k1 l1 c1
        = build_individual_section_prompt k2 l2 c2 := by
  intro k1 k2 l1 l2 c1 c2 hk hl hc
  rw [hk, hl, hc]

/-- C9 witness: two runs on the same concrete inputs. -/
theorem prompt_builder_deterministic_witness :
    build_individual_section_prompt "executive_summary" "English" "EUR"
      = build_individual_section_prompt "executive_summary" "English" "EUR" :=
  prompt_builder_deterministic "executive_summary" "executive_summary"
    "English" "English" "EUR" "EUR" rfl rfl rfl

/-- C10: every message submitted through the transport client reaches the
upstream with at most 8000 characters plus the appended ellipsis (8003
characters in all), each sent message being either an unchanged short
message or the 8000-character prefix of a long one with `"..."` appended;
meanwhile the orchestrator's own per-item context cap is 122000 characters
(plus ellipsis), far above the transport cap, so only a fixed-size prefix
of a long context ever reaches the generation service. -/
theorem transport_truncates_to_8000 :
    (∀ (msgs : List ChatMessage) m, m ∈ create_chat_completion_messages msgs →
      m.content.data.length ≤ 8003 ∧
      ∃ orig, orig ∈ msgs ∧ m.role = orig.role ∧
        ((orig.content.data.length ≤ 8000 ∧ m.content = orig.content) ∨
         (8000 < orig.content.data.length ∧
          m.content = String.mk (orig.content.data.take 8000 ++ "...".data)))) ∧
    (∀ s : String, (capInputItem s).data.length ≤ max_input_length + 3) ∧
    8003 < max_input_length := by
  refine ⟨?_, ?_, by decide⟩
  · intro msgs m hm
    obtain ⟨orig, ho, rfl⟩ := List.mem_map.mp hm
    unfold truncateMessage
    by_cases h : orig.content.data.length > 8000
    · simp only [h, if_pos]
      constructor
      · simp [List.length_append, List.length_take]
      · exact ⟨orig, ho, rfl, Or.inr ⟨h, rfl⟩⟩
    · simp only [h, if_neg, not_false_iff]
      exact ⟨by omega, orig, ho, rfl, Or.inl ⟨by omega, rfl⟩⟩
  · intro s
    unfold capInputItem
    by_cases h : s.data.length > max_input_length
    · simp only [h, if_pos]
      simp [List.length_append, List.length_take]
    · simp only [h, if_neg, not_false_iff]
      omega

/-- C10 witness: a short message passes through unchanged and within the
bound. -/
theorem transport_truncates_to_8000_witness :
    (ChatMessage.mk "system" "hi").content.data.length ≤ 8003 ∧
    ∃ orig, orig ∈ [ChatMessage.mk "system" "hi"] ∧
      (ChatMessage.mk "system" "hi").role = orig.role ∧
      ((orig.content.data.length ≤ 8000 ∧
        (ChatMessage.mk "system" "hi").content = orig.content) ∨
       (8000 < orig.content.data.length ∧
        (ChatMessage.mk "system" "hi").content
          = String.mk (orig.content.data.take 8000 ++ "...".data))) :=
  transport_truncates_to_8000.1 [ChatMessage.mk "system" "hi"]
    (ChatMessage.mk "system" "hi") (by decide)

/-- C1: for every run, the document returned by `generate_business_plan`
binds exactly the registry's keys (which are pairwise distinct), one entry
per key, whatever each per-section job produced; and when a defect occurs
outside the per-job boundary the function still returns the document that
binds every registry key to its kind-matching empty default instead of
raising. -/
theorem generate_plan_always_full_keyset :
    ∀ loads oracle defect,
      (generate_business_plan loads oracle defect).map Prod.fst = registryKeys ∧
      registryKeys.Nodup ∧
      (defect = true → ∀ k sch, lookupSchema k = some sch →
        docLookup (generate_business_plan loads oracle defect) k
          = some (sectionDefault sch)) := by
  intro loads oracle defect
  refine ⟨?_, by decide, ?_⟩
  · cases defect with
    | true =>
      show (empty_plan).map Prod.fst = registryKeys
      exact map_entry_fst _ _
    | false =>
      show ((generate_business_plan_core loads oracle).1).map Prod.fst = registryKeys
      exact map_entry_fst _ _
  · intro hd k sch h
    subst hd
    show docLookup empty_plan k = some (sectionDefault sch)
    unfold empty_plan
    exact docLookup_entry_map (fun e => sectionDefault e.2) k sch h

set_option maxRecDepth 20000 in
/-- C3 counterexample: a run in which every one of the three attempts ends
in a validation failure — each reply parses to a 239-word
`executive_summary`, one word below the `min_words * 0.8 = 240` threshold
and above the 50-character sanity floor — does not resolve to the empty
default: the final attempt returns the short parsed object itself (with
exactly the three transport calls), so the job's value is the non-empty
short text rather than `""`. -/
theorem retry_exhaustion_short_narrative_kept :
    call_individual_section (fun _ => some shortNarrativeObj) "executive_summary"
        (fun _ => .reply "") 3 = .ok ⟨some shortNarrativeObj, 3⟩ ∧
    10 * wordCount shortText < 8 * 300 ∧
    50 ≤ (pyStripList shortText.data).length ∧
    shortText ≠ "" :=
  ⟨rfl, by decide, by decide, by decide⟩

/-- C3 (amended): when every one of the configured maximum attempts ends in
a repair failure (transport error, unparseable reply, missing key, wrong
value type, or a narrative below the 50-character sanity floor), the job
resolves to the section's contract-shaped empty default, makes exactly the
configured number of transport calls (none after the last attempt), and
returns normally instead of propagating an error; a narrative that parses
and meets the sanity floor but misses the word-count threshold is, on the
final attempt, returned as-is rather than replaced by the empty default
(see the counterexample). -/
theorem repair_failure_exhaustion_empty_default :
    ∀ (loads : String → Option Jv) key sch (oracle : Nat → AttemptOutcome) (n : Nat),
      lookupSchema key = some sch → 0 < n →
      (∀ i, i < n → attemptRepairFails loads key sch (oracle i) = true) →
      call_individual_section loads key oracle n
        = .ok ⟨some (emptySectionJv key sch), n⟩ := by
  intro loads key sch oracle n h hn hfail
  have hstep := csLoop_all_fail loads key sch oracle n 0 0 hn
    (fun i _ h2 => hfail i (by omega))
  simp [call_individual_section, h, hstep]

/-- C3 witness: three transport failures exhaust to the empty default with
exactly three calls. -/
theorem repair_failure_exhaustion_empty_default_witness :
    call_individual_section (fun _ => none) "executive_summary"
        (fun _ => .transportErr) 3
      = .ok ⟨some (emptySectionJv "executive_summary" lookedUpExec), 3⟩ :=
  repair_failure_exhaustion_empty_default (fun _ => none) "executive_summary"
    lookedUpExec (fun _ => .transportErr) 3 rfl (by decide) (fun i _ => rfl)

/-- C7: the section call is total for every known key — whatever the parse
function and the per-attempt replies do, `call_individual_section` returns
a value and never propagates an exception; in particular when every reply
is malformed (the parse function always fails) the job resolves to the
section's empty default after the configured number of attempts, the parse
failures being handled as data rather than raised. -/
theorem section_call_total_no_uncaught :
    ∀ (loads : String → Option Jv) key sch (oracle : Nat → AttemptOutcome) (n : Nat),
      lookupSchema key = some sch → 0 < n →
      (∃ t, call_individual_section loads key oracle n = .ok t) ∧
      call_individual_section (fun _ => none) key oracle n
        = .ok ⟨some (emptySectionJv key sch), n⟩ := by
  intro loads key sch oracle n h hn
  constructor
  · refine ⟨csLoop loads key sch oracle n 0 0, ?_⟩
    simp [call_individual_section, h]
  · have hstep := csLoop_all_fail (fun _ => none) key sch oracle n 0 0 hn
      (fun i _ _ => by cases oracle i <;> rfl)
    simp [call_individual_section, h, hstep]

/-- C7 witness: a key with unparseable replies resolves to the empty
default. -/
theorem section_call_total_no_uncaught_witness :
    call_individual_section (fun _ => none) "executive_summary"
        (fun _ => .reply "junk") 3
      = .ok ⟨some (emptySectionJv "executive_summary" lookedUpExec), 3⟩ :=
  (section_call_total_no_uncaught (fun _ => none) "executive_summary" lookedUpExec
    (fun _ => .reply "junk") 3 rfl (by decide)).2

/-- C5: for every narrative (string-typed) registry section, a parsed value
of at least the sanity-floor length whose word count is exactly
`min_words * 0.8` passes validation, and a value with one word fewer fails
the word-count gate — and when the first attempt fails that gate the loop
dispatches a further transport call (a retry).  The float comparison
`word_count < min_words * 0.8` is embedded exactly as `10 * wc < 8 * mw`;
for the registry's `min_words` values the two agree (see the module
comment). -/
theorem narrative_word_floor_boundary :
    ∀ k sch, lookupSchema k = some sch → sch.type_ = "string" →
      ∀ s : String, 50 ≤ (pyStripList s.data).length →
        (10 * wordCount s = 8 * sch.getMinWords →
          sectionCheck k sch (Jv.obj [(k, Jv.str s)])
            = .pass (Jv.obj [(k, Jv.str s)])) ∧
        (10 * (wordCount s + 1) = 8 * sch.getMinWords →
          sectionCheck k sch (Jv.obj [(k, Jv.str s)])
            = .wordShort (Jv.obj [(k, Jv.str s)]) ∧
          ∀ loads oracle,
            classifyAttempt loads k sch (oracle 0) = .short (Jv.obj [(k, Jv.str s)]) →
            2 ≤ (csLoop loads k sch oracle 3 0 0).calls) := by
  intro k sch h hs s hlen
  have hlook : pyDictLookup [(k, Jv.str s)] k = some (Jv.str s) := by
    simp [pyDictLookup]
  have h1 : ¬ ((pyStripList s.data).length < 50) := by omega
  constructor
  · intro h10
    have h2 : ¬ (10 * wordCount s < 8 * sch.getMinWords) := by omega
    simp [sectionCheck, hlook, hs, h1, h2]
  · intro h10
    have h2 : 10 * wordCount s < 8 * sch.getMinWords := by omega
    constructor
    · simp [sectionCheck, hlook, hs, h1, h2]
    · intro loads oracle hcl
      have : csLoop loads k sch oracle 3 0 0
          = csLoop loads k sch oracle 2 1 1 := by
        rw [csLoop_succ_eq, hcl]
        simp
      rw [this]
      exact csLoop_calls_progress loads k sch oracle 2 1 1 (by decide)

set_option maxRecDepth 20000 in
/-- C5 witness: a 240-word `executive_summary` (threshold `300 * 0.8`)
passes validation. -/
theorem narrative_word_floor_boundary_witness :
    sectionCheck "executive_summary" lookedUpExec
        (Jv.obj [("executive_summary", Jv.str passText)])
      = .pass (Jv.obj [("executive_summary", Jv.str passText)]) :=
  (narrative_word_floor_boundary "executive_summary" lookedUpExec rfl rfl passText
    (by decide)).1 (by decide)

set_option maxRecDepth 20000 in
/-- C8 counterexample: there is no enhancement pass.  In a run whose three
`executive_summary` attempts each produce the same 239-word text — below
80% of the 300-word registry target — the final document keeps that short
text unchanged, and the whole generation makes exactly 60 transport calls
(three per section, none of them an extra expand-mode attempt), so no
short narrative entry is ever regenerated or replaced after the merge. -/
theorem no_enhancement_pass_short_entry_kept :
    docLookup (generate_business_plan (fun _ => some shortNarrativeObj)
        (fun _ _ => .reply "") false) "executive_summary" = some (Jv.str shortText) ∧
    10 * wordCount shortText < 8 * 300 ∧
    (generate_business_plan_core (fun _ => some shortNarrativeObj)
        (fun _ _ => .reply "")).2 = 60 ∧
    shortText ≠ "" :=
  ⟨rfl, by decide, rfl, by decide⟩

/-- C8 (amended): after the initial merge nothing further runs — every
entry of the returned document is exactly the per-section job's merged
value (so already-present content is never removed or rewritten), and each
section job makes at most the retry loop's three transport calls, with no
additional expand-mode attempt for short narrative entries. -/
theorem merge_preserves_section_results :
    ∀ loads oracle k sch, lookupSchema k = some sch →
      docLookup (generate_business_plan loads oracle false) k
        = some ((mergeEntry loads oracle (k, sch)).1) ∧
      (mergeEntry loads oracle (k, sch)).2 ≤ 3 := by
  intro loads oracle k sch h
  constructor
  · show docLookup ((generate_business_plan_core loads oracle).1) k = _
    unfold generate_business_plan_core
    exact docLookup_entry_map (fun e => (mergeEntry loads oracle e).1) k sch h
  · unfold mergeEntry
    dsimp only
    cases hcall : call_individual_section loads k (oracle k) 3 with
    | error e => simp
    | ok t =>
      have ht : t.calls ≤ 3 := by
        unfold call_individual_section at hcall
        rw [h] at hcall
        injection hcall with h2
        rw [← h2]
        exact csLoop_calls_le loads k sch (oracle k) 3 0 0
      rcases t with ⟨res, calls⟩
      cases res with
      | none => simpa using ht
      | some v =>
        cases v with
        | null => simpa using ht
        | bool b => simpa using ht
        | num t => simpa using ht
        | str s => simpa using ht
        | arr xs => simpa using ht
        | obj fs =>
          cases hpd : pyDictLookup fs k with
          | none => simpa [hpd] using ht
          | some x => simpa [hpd] using ht

/-- C8 witness: the merged value of the first key is its job's value and
its job made at most three calls. -/
theorem merge_preserves_section_results_witness :
    docLookup (generate_business_plan (fun _ => none) (fun _ _ => .transportErr) false)
        "executive_summary"
      = some ((mergeEntry (fun _ => none) (fun _ _ => .transportErr)
          ("executive_summary", lookedUpExec)).1) ∧
    (mergeEntry (fun _ => none) (fun _ _ => .transportErr)
        ("executive_summary", lookedUpExec)).2 ≤ 3 :=
  merge_preserves_section_results (fun _ => none) (fun _ _ => .transportErr)
    "executive_summary" lookedUpExec rfl

/-! Helper lemmas for the repair-pipeline extraction proof. -/

theorem dropWhile_nonWs_of_any (p : Char → Bool) :
    ∀ l : List Char, l.any (fun c => !(p c)) = true →
      ∃ c cs, l.dropWhile p = c :: cs ∧ p c = false ∧ c ∈ l := by
  intro l
  induction l with
  | nil => intro h; simp at h
  | cons a t ih =>
    intro h
    by_cases ha : p a
    · have ht : t.any (fun c => !(p c)) = true := by simpa [ha] using h
      obtain ⟨c, cs, h1, h2, h3⟩ := ih ht
      exact ⟨c, cs, by simp [List.dropWhile_cons, ha, h1],
        h2, List.mem_cons_of_mem _ h3⟩
    · exact ⟨a, t, by simp [List.dropWhile_cons, ha],
        by simpa using ha, List.mem_cons_self _ _⟩

theorem subCommaCloseF_no_match (close : Char) :
    ∀ fuel l, hasCommaCloseF close fuel l = false →
      subCommaCloseF close fuel l = l := by
  intro fuel
  induction fuel with
  | zero => intro l _; rfl
  | succ n ih =>
    intro l h
    cases l with
    | nil => rfl
    | cons c rest =>
      by_cases hc : c = ','
      · subst hc
        cases hd : rest.dropWhile pyIsSpace with
        | nil =>
          have h' : hasCommaCloseF close n rest = false := by
            simpa [hasCommaCloseF, hd] using h
          simp [subCommaCloseF, hd, ih rest h']
        | cons c2 tl =>
          by_cases h2 : c2 = close
          · exfalso
            subst h2
            simp [hasCommaCloseF, hd] at h
          · have h' : hasCommaCloseF close n rest = false := by
              simpa [hasCommaCloseF, hd, h2] using h
            simp [subCommaCloseF, hd, h2, ih rest h']
      · have h' : hasCommaCloseF close n rest = false := by
          simpa [hasCommaCloseF, hc] using h
        simp [subCommaCloseF, hc, ih rest h']

theorem subCommaClose_no_match (close : Char) (l : List Char)
    (h : hasCommaClose close l = false) : subCommaClose close l = l :=
  subCommaCloseF_no_match close l.length l h

theorem findIdx_none_of_forall (p : Char → Bool) (l : List Char)
    (h : ∀ c ∈ l, p c = false) : l.findIdx? p = none :=
  List.findIdx?_eq_none_iff.mpr h

/-- C6 counterexample: a reply that is a well-formed fenced JSON object
followed by trailing prose containing a brace.  The last-closing-brace
truncation of `clean_json_response` cuts at the prose's brace, so the
recovered text is not the embedded object (the second conjunct exhibits
the actual output, which still contains the fence and part of the
prose). -/
theorem fenced_object_trailing_brace_prose :
    clean_json_response fencedReplyCounterexample ≠ embeddedObjectText ∧
    clean_json_response fencedReplyCounterexample
      = "\x7b\"k\": \"v\"\x7d\n```\nsee \x7bfig\x7d" :=
  ⟨by decide, rfl⟩

/-- C6 (amended): for a raw reply of the shape fenced JSON object plus
trailing prose — `\x60\x60\x60json`, newline, an object `\x7b…\x7d`,
newline, closing fence, newline, prose — the repair extraction returns
exactly the embedded object, character for character, provided the
trailing prose contains no closing brace, no closing bracket and no
backquote (and at least one non-whitespace character, i.e. it is genuine
prose), and the object contains no comma-whitespace-closer span that the
trailing-comma fix would rewrite. -/
theorem fenced_object_extraction_exact :
    ∀ (mid prose : List Char),
      hasCommaClose rbrack (lbrace :: (mid ++ [rbrace])) = false →
      hasCommaClose rbrace (lbrace :: (mid ++ [rbrace])) = false →
      prose.all (fun c => !(c == rbrace) && !(c == rbrack) && !(c == backquote)) = true →
      prose.any (fun c => !(pyIsSpace c)) = true →
      clean_json_response (String.mk ("```json\n".data
          ++ ((lbrace :: (mid ++ [rbrace])) ++ ("\n```\n".data ++ prose))))
        = String.mk (lbrace :: (mid ++ [rbrace])) := by
  intro mid prose hcomma1 hcomma2 hall hany
  have hall' := List.all_eq_true.mp hall
  have hbq : ∀ c ∈ prose, (c = rbrace → False) ∧ (c = rbrack → False) ∧
      (c = backquote → False) := by
    intro c hc
    have h := hall' c hc
    simp only [Bool.and_eq_true, Bool.not_eq_true', beq_eq_false_iff_ne, ne_eq] at h
    exact ⟨fun h1 => h.1.1 h1, fun h1 => h.1.2 h1, fun h1 => h.2 h1⟩
  -- step A: opening-fence removal
  have hA : stripFenceOpen ("```json\n".data
      ++ ((lbrace :: (mid ++ [rbrace])) ++ ("\n```\n".data ++ prose)))
      = (lbrace :: (mid ++ [rbrace])) ++ ("\n```\n".data ++ prose) := rfl
  -- step B: no trailing fence at the end (the prose ends the text)
  have hpal : ("\n```\n".data).reverse = "\n```\n".data := by decide
  have hrev2 : ((lbrace :: (mid ++ [rbrace])) ++ ("\n```\n".data ++ prose)).reverse
      = (prose.reverse ++ "\n```\n".data) ++ (lbrace :: (mid ++ [rbrace])).reverse := by
    rw [List.reverse_append, List.reverse_append, hpal]
  have hobjrev : (lbrace :: (mid ++ [rbrace])).reverse
      = rbrace :: (mid.reverse ++ [lbrace]) := by
    simp
  obtain ⟨c, cs, hdw, hcws, hcmem⟩ :=
    dropWhile_nonWs_of_any pyIsSpace prose.reverse (by simpa using hany)
  have hcmem' : c ∈ prose := List.mem_reverse.mp hcmem
  have hstep : (((lbrace :: (mid ++ [rbrace]))
      ++ ("\n```\n".data ++ prose)).reverse).dropWhile pyIsSpace
      = c :: (cs ++ ("\n```\n".data ++ (lbrace :: (mid ++ [rbrace])).reverse)) := by
    rw [hrev2, List.append_assoc, List.dropWhile_append]
    simp [hdw]
  have hB : stripFenceClose ((lbrace :: (mid ++ [rbrace])) ++ ("\n```\n".data ++ prose))
      = (lbrace :: (mid ++ [rbrace])) ++ ("\n```\n".data ++ prose) := by
    have hcond : ((((lbrace :: (mid ++ [rbrace]))
        ++ ("\n```\n".data ++ prose)).reverse).dropWhile pyIsSpace).take 3
        ≠ fenceChars := by
      rw [hstep]
      intro hEq
      have hhead : c = backquote := by
        have h1 := congrArg (fun l => l.headD ' ') hEq
        have h2 : fenceChars.headD ' ' = backquote := by decide
        simpa [h2] using h1
      exact (hbq c hcmem').2.2 hhead
    simp only [stripFenceClose]
    rw [if_neg hcond]
  -- step C: the text already starts with the opening brace
  have hC : sliceFromStart ((lbrace :: (mid ++ [rbrace])) ++ ("\n```\n".data ++ prose))
      = (lbrace :: (mid ++ [rbrace])) ++ ("\n```\n".data ++ prose) := rfl
  -- step D: truncation after the last closing brace/bracket cuts exactly
  -- after the object
  have hfa1 : (prose.reverse ++ "\n```\n".data).findIdx? (· = rbrace) = none := by
    apply findIdx_none_of_forall
    intro x hx
    rcases List.mem_append.mp hx with hx | hx
    · have := (hbq x (List.mem_reverse.mp hx)).1
      simp only [decide_eq_false_iff_not]
      exact this
    · fin_cases hx <;> decide
  have hfa2 : (prose.reverse ++ "\n```\n".data).findIdx? (· = rbrack) = none := by
    apply findIdx_none_of_forall
    intro x hx
    rcases List.mem_append.mp hx with hx | hx
    · have := (hbq x (List.mem_reverse.mp hx)).2.1
      simp only [decide_eq_false_iff_not]
      exact this
    · fin_cases hx <;> decide
  have hlenrev : (prose.reverse ++ "\n```\n".data).length = prose.length + 5 := by
    simp
  have hlen1 : ((lbrace :: (mid ++ [rbrace])) ++ ("\n```\n".data ++ prose)).length
      = mid.length + 7 + prose.length := by
    simp
    omega
  have hfr1 : pyRfind rbrace ((lbrace :: (mid ++ [rbrace]))
      ++ ("\n```\n".data ++ prose)) = (mid.length : Int) + 1 := by
    unfold pyRfind
    rw [hrev2, hobjrev, List.findIdx?_append, hfa1]
    have hhd : (rbrace :: (mid.reverse ++ [lbrace])).findIdx? (· = rbrace) = some 0 := by
      simp [List.findIdx?_cons]
    rw [hhd]
    simp only [Option.map_some', Option.none_or]
    rw [hlen1, hlenrev]
    push_cast
    omega
  have hfr2 : pyRfind rbrack ((lbrace :: (mid ++ [rbrace]))
      ++ ("\n```\n".data ++ prose)) ≤ (mid.length : Int) := by
    unfold pyRfind
    rw [hrev2, hobjrev, List.findIdx?_append, hfa2]
    have hhd : (rbrace :: (mid.reverse ++ [lbrace])).findIdx? (· = rbrack)
        = ((mid.reverse ++ [lbrace]).findIdx? (· = rbrack)).map (· + 1) := by
      have hne : (decide (rbrace = rbrack)) = false := by decide
      simp [List.findIdx?_cons, hne]
    rw [hhd]
    cases hj : (mid.reverse ++ [lbrace]).findIdx? (· = rbrack) with
    | none => simp; omega
    | some j =>
      have hjlt : j < (mid.reverse ++ [lbrace]).length :=
        (List.findIdx?_eq_some_iff_findIdx_eq.mp hj).1
      have hjlt' : j < mid.length + 1 := by simpa using hjlt
      simp only [Option.map_some', Option.none_or]
      rw [hlen1, hlenrev]
      push_cast
      omega
  have hmax : max (pyRfind rbrace ((lbrace :: (mid ++ [rbrace]))
        ++ ("\n```\n".data ++ prose)))
      (pyRfind rbrack ((lbrace :: (mid ++ [rbrace])) ++ ("\n```\n".data ++ prose)))
      = (mid.length : Int) + 1 := by
    rw [hfr1]
    exact max_eq_left (le_trans hfr2 (by omega))
  have hD : truncAfterLastClose ((lbrace :: (mid ++ [rbrace]))
      ++ ("\n```\n".data ++ prose)) = lbrace :: (mid ++ [rbrace]) := by
    have hc1 : (mid.length : Int) + 1 < ((mid.length + 7 + prose.length : Nat) : Int) - 1 := by
      push_cast
      omega
    have hc2 : (mid.length : Int) + 1 ≠ -1 := by
      omega
    simp only [truncAfterLastClose]
    rw [hmax, hlen1]
    rw [if_pos ⟨hc1, hc2⟩]
    have htn : (((mid.length : Int) + 1).toNat + 1) = mid.length + 2 := by omega
    rw [htn]
    exact List.take_left' (by simp)
  -- step E/F: the comma fixes and the strip leave the object unchanged
  have hE1 : subCommaClose rbrack (lbrace :: (mid ++ [rbrace]))
      = lbrace :: (mid ++ [rbrace]) := subCommaClose_no_match _ _ hcomma1
  have hE2 : subCommaClose rbrace (lbrace :: (mid ++ [rbrace]))
      = lbrace :: (mid ++ [rbrace]) := subCommaClose_no_match _ _ hcomma2
  have hF : pyStripList (lbrace :: (mid ++ [rbrace])) = lbrace :: (mid ++ [rbrace]) := by
    unfold pyStripList
    have h1 : (lbrace :: (mid ++ [rbrace])).dropWhile pyIsSpace
        = lbrace :: (mid ++ [rbrace]) := by
      rw [List.dropWhile_cons, if_neg (by decide)]
    rw [h1, hobjrev, List.dropWhile_cons, if_neg (by decide)]
    simp
  -- assemble the pipeline
  show String.mk (cleanList _) = _
  unfold cleanList
  rw [hA, hB, hC, hD, hE1, hE2, hF]

/-- C6 witness: the spec's own example reply, with brace-free trailing
prose, is recovered exactly. -/
theorem fenced_object_extraction_exact_witness :
    clean_json_response (String.mk ("```json\n".data
        ++ ((lbrace :: ("\"k\": \"hello world\"".data ++ [rbrace]))
          ++ ("\n```\n".data ++ "Extra commentary".data))))
      = String.mk (lbrace :: ("\"k\": \"hello world\"".data ++ [rbrace])) :=
  fenced_object_extraction_exact "\"k\": \"hello world\"".data "Extra commentary".data
    (by decide) (by decide) (by decide) (by decide)

/-- C1 witness: a defective run still yields the full key set and binds the
first key to its empty default. -/
theorem generate_plan_always_full_keyset_witness :
    (generate_business_plan (fun _ => none) (fun _ _ => .transportErr) true).map Prod.fst
      = registryKeys ∧
    docLookup (generate_business_plan (fun _ => none) (fun _ _ => .transportErr) true)
      "executive_summary" = some (sectionDefault lookedUpExec) :=
  ⟨(generate_plan_always_full_keyset (fun _ => none) (fun _ _ => .transportErr) true).1,
   (generate_plan_always_full_keyset (fun _ => none) (fun _ _ => .transportErr) true).2.2
     rfl "executive_summary" lookedUpExec rfl⟩

end BizPlan
